import Mathlib

/-!
# Formal model of `OnlineGameRoomManager.py`

A WebSocket relay server pairing at most two clients per room.  The Python
module keeps two process-wide dicts:

* `rooms : room_id → {clients : list, players : dict ws → number, used_player_numbers : dict}`
* `client_rooms : ws → room_id`

and two async functions, `handler` (the per-connection message loop) and
`cleanup_player` (disconnect cleanup).  We model connections by natural
numbers, Python dicts by insertion-ordered association lists (so that
`dict.values()` order is preserved), and the transport's `send` by an
environment `env : Nat → SendOutcome` describing, for each connection,
whether a send to it succeeds, raises `ConnectionClosed`, or raises some
other exception.
-/

/-- Outcome of `await conn.send(...)` for a given target connection:
success, `websockets.exceptions.ConnectionClosed`, or any other exception. -/
inductive SendOutcome where
  | ok
  | closed
  | err
deriving DecidableEq, Repr

/-- A decoded inbound JSON object that passed validation: a dict containing
the key `room_id`.  All further content is opaque to the server and is
modelled by the field `rest`. -/
structure MsgData where
  roomId : String
  rest : String
deriving DecidableEq, Repr

/-- An inbound text frame, as the handler classifies it: text that is not
valid JSON (`json.JSONDecodeError`), a decoded value that is not a dict or
lacks `room_id`, or a well-formed envelope. -/
inductive InMsg where
  | badJson
  | noRoomId
  | valid (data : MsgData)
deriving DecidableEq, Repr

/-- Outbound messages, one constructor per `MESSAGE_TYPE` value actually
sent by the server, carrying exactly the fields of the corresponding
`data` object in the source. -/
inductive OutMsg where
  | error (msg : String)
  | roomCreated (roomId : String) (playerNumber currentCount maxPlayers : Nat)
  | roomJoined (roomId : String) (playerNumber currentCount maxPlayers : Nat)
      (players : List Nat)
  | roomFull (roomId : String) (currentCount maxPlayers : Nat)
  | playerJoined (roomId : String) (playerNumber currentCount : Nat) (players : List Nat)
  | playerLeft (roomId : String) (playerNumber : Option Nat) (currentCount : Nat)
      (players : List Nat)
  | dataReceived (roomId : String) (recipientsCount currentCount : Nat)
  | dataTransfer (data : MsgData) (fromPlayer : Nat)
deriving DecidableEq, Repr

/-- First-match lookup in an association list (Python dict read `d[k]` /
`d.get(k)`). -/
def lookupA {α β : Type} [DecidableEq α] : List (α × β) → α → Option β
  | [], _ => none
  | (k0, v0) :: rest, k => if k = k0 then some v0 else lookupA rest k

/-- Insertion-ordered update (Python dict write `d[k] = v`): replaces the
value in place if the key is present, appends otherwise. -/
def setA {α β : Type} [DecidableEq α] : List (α × β) → α → β → List (α × β)
  | [], k, v => [(k, v)]
  | (k0, v0) :: rest, k, v =>
      if k = k0 then (k0, v) :: rest else (k0, v0) :: setA rest k v

/-- Key removal (Python dict `pop` / `del`); removes every entry with the
key, which on duplicate-free lists (all states built by `setA`) coincides
with dict deletion and keeps the remaining insertion order. -/
def eraseA {α β : Type} [DecidableEq α] : List (α × β) → α → List (α × β)
  | [], _ => []
  | (k0, v0) :: rest, k =>
      if k = k0 then eraseA rest k else (k0, v0) :: eraseA rest k

/-- One room, mirroring the dict stored in `rooms[room_id]`:
`clients` is the list of member connections in join order, `players` the
insertion-ordered connection-to-slot-number dict, and `usedPlayerNumbers`
the keys of the `used_player_numbers` dict. -/
structure Room where
  clients : List Nat
  players : List (Nat × Nat)
  usedPlayerNumbers : List Nat
deriving DecidableEq, Repr

/-- The process-wide state: the `rooms` registry and the `client_rooms`
reverse index. -/
structure ServerState where
  rooms : List (String × Room)
  clientRooms : List (Nat × String)
deriving DecidableEq, Repr

/-- The empty initial state: both module-level dicts start empty. -/
def initialState : ServerState := ⟨[], []⟩

/-- The slot numbers currently held by the room's clients:
`[room["players"][client] for client in room["clients"]]`.  In the source
this is a plain dict lookup, reachable only for clients registered in
`players`; the default `0` is never a slot number. -/
def takenNumbers (room : Room) : List Nat :=
  room.clients.map (fun c => (lookupA room.players c).getD 0)

/-- `[i for i in range(1, 3) if i not in takenNumbers]`. -/
def availableNumbers (room : Room) : List Nat :=
  [1, 2].filter (fun i => ¬ i ∈ takenNumbers room)

/-- `player_number = min(available_numbers) if available_numbers else 2`. -/
def assignedNumber (room : Room) : Nat :=
  ((availableNumbers room).min?).getD 2

/-- `room["used_player_numbers"][player_number] = True`: dict key insert. -/
def addUsed (used : List Nat) (n : Nat) : List Nat :=
  if n ∈ used then used else used ++ [n]

/-- The result of processing one iteration of the `async for` message loop:
the state afterwards, the messages actually delivered (in send order), and
whether an exception escaped the loop body (an unguarded `websocket.send`
raising), which terminates the connection's loop. -/
structure Result where
  state : ServerState
  sent : List (Nat × OutMsg)
  crashed : Bool
deriving DecidableEq, Repr

/-- An unguarded `await websocket.send(...)`: on success the message is
delivered, otherwise the exception propagates out of the loop body. -/
def unguardedSend (env : Nat → SendOutcome) (st : ServerState)
    (prev : List (Nat × OutMsg)) (ws : Nat) (m : OutMsg) : Result :=
  match env ws with
  | .ok => ⟨st, prev ++ [(ws, m)], false⟩
  | _ => ⟨st, prev, true⟩

/-- The member branch of `cleanup_player` (lines 220-253 of the source):
remove the client from `players`, `used_player_numbers` and `clients`,
broadcast `player_left` to the remaining members (all exceptions are only
logged, lines 247-248), and delete the room from the registry when it has
become empty. -/
def cleanupMember (env : Nat → SendOutcome) (st : ServerState) (ws : Nat)
    (roomId : String) (room : Room) : ServerState × List (Nat × OutMsg) :=
  let pn := lookupA room.players ws
  let players1 := eraseA room.players ws
  let used1 := match pn with
    | some n => room.usedPlayerNumbers.erase n
    | none => room.usedPlayerNumbers
  let clients1 := room.clients.erase ws
  let playersList := players1.map Prod.snd
  let count := clients1.length
  let sends := clients1.filterMap (fun c =>
    if env c = .ok then
      some (c, OutMsg.playerLeft roomId pn count playersList)
    else none)
  if clients1.isEmpty then
    (⟨eraseA st.rooms roomId, eraseA st.clientRooms ws⟩, sends)
  else
    (⟨setA st.rooms roomId ⟨clients1, players1, used1⟩, eraseA st.clientRooms ws⟩,
     sends)

/-- `cleanup_player(websocket)`: pop the reverse index (`client_rooms`);
if the connection was not mapped, return at once; look up the room; if the
connection is a member, run the member branch. -/
def cleanup_player (env : Nat → SendOutcome) (st : ServerState) (ws : Nat) :
    ServerState × List (Nat × OutMsg) :=
  match lookupA st.clientRooms ws with
  | none => (st, [])
  | some roomId =>
      match lookupA st.rooms roomId with
      | none => (⟨st.rooms, eraseA st.clientRooms ws⟩, [])
      | some room =>
          if ws ∈ room.clients then cleanupMember env st ws roomId room
          else (⟨st.rooms, eraseA st.clientRooms ws⟩, [])

/-- The create branch (`room_id not in rooms`): install the new room with
the sender as player 1, record the reverse mapping, reply `room_created`. -/
def createResult (env : Nat → SendOutcome) (st : ServerState) (ws : Nat)
    (roomId : String) : Result :=
  let room : Room := ⟨[ws], [(ws, 1)], [1]⟩
  let st1 : ServerState :=
    ⟨setA st.rooms roomId room, setA st.clientRooms ws roomId⟩
  unguardedSend env st1 [] ws (.roomCreated roomId 1 1 2)

/-- The room-full branch: reply `room_full`; no state change. -/
def fullResult (env : Nat → SendOutcome) (st : ServerState) (ws : Nat)
    (roomId : String) (room : Room) : Result :=
  unguardedSend env st [] ws (.roomFull roomId room.clients.length 2)

/-- The room after a join: the joiner appended to `clients`, its assigned
number recorded in `players` and in `used_player_numbers`. -/
def joinedRoom (room : Room) (ws : Nat) : Room :=
  ⟨room.clients ++ [ws],
   setA room.players ws (assignedNumber room),
   addUsed room.usedPlayerNumbers (assignedNumber room)⟩

/-- The join branch: mutate the room and the reverse index, reply
`room_joined` to the joiner (unguarded), then broadcast `player_joined` to
every other member; broadcast failures are only logged (lines 144-145 of
the source catch every exception without cleanup). -/
def joinResult (env : Nat → SendOutcome) (st : ServerState) (ws : Nat)
    (roomId : String) (room : Room) : Result :=
  let pn := assignedNumber room
  let room1 := joinedRoom room ws
  let st1 : ServerState :=
    ⟨setA st.rooms roomId room1, setA st.clientRooms ws roomId⟩
  let playersList := room1.players.map Prod.snd
  let count := room1.clients.length
  match env ws with
  | .ok =>
      let broadcast := (room1.clients.filter (fun c => c ≠ ws)).filterMap (fun c =>
        if env c = .ok then
          some (c, OutMsg.playerJoined roomId pn count playersList)
        else none)
      ⟨st1, (ws, OutMsg.roomJoined roomId pn count 2 playersList) :: broadcast, false⟩
  | _ => ⟨st1, [], true⟩

/-- Accumulator of the relay forward loop: current state, delivered
messages so far, and `forward_count`. -/
structure RelayAcc where
  state : ServerState
  sent : List (Nat × OutMsg)
  forwardCount : Nat
deriving DecidableEq, Repr

/-- One iteration of `for client in list(room["clients"])` in the relay
branch: skip the sender; on a successful send deliver the `data_transfer`
envelope and bump `forward_count`; on `ConnectionClosed` run
`cleanup_player(client)`; on any other exception only log. -/
def relayStep (env : Nat → SendOutcome) (ws : Nat) (data : MsgData)
    (playerNumber : Nat) (acc : RelayAcc) (c : Nat) : RelayAcc :=
  if c = ws then acc
  else
    match env c with
    | .ok =>
        ⟨acc.state, acc.sent ++ [(c, OutMsg.dataTransfer data playerNumber)],
         acc.forwardCount + 1⟩
    | .closed =>
        let r := cleanup_player env acc.state c
        ⟨r.1, acc.sent ++ r.2, acc.forwardCount⟩
    | .err => acc

/-- The relay branch (`websocket in room["clients"]`): look up the sender's
number (an unguarded dict access: a missing key would raise out of the
loop body), forward the entire original decoded payload to every other
member over a snapshot of the client list, then send the `data_received`
acknowledgment (unguarded) carrying `forward_count` and the room's current
`len(clients)` — read through the still-live `room` alias, i.e. from the
post-loop state. -/
def relayResult (env : Nat → SendOutcome) (st : ServerState) (ws : Nat)
    (roomId : String) (room : Room) (data : MsgData) : Result :=
  match lookupA room.players ws with
  | none => ⟨st, [], true⟩
  | some playerNumber =>
      let acc := room.clients.foldl (relayStep env ws data playerNumber) ⟨st, [], 0⟩
      let curLen := match lookupA acc.state.rooms roomId with
        | some r => r.clients.length
        | none => 0
      unguardedSend env acc.state acc.sent ws
        (.dataReceived roomId acc.forwardCount curLen)

/-- One iteration of the `async for` body of `handler`: decode errors and
missing `room_id` get an `error` reply and `continue`; an unknown room id
creates; a known room either relays (sender already a member), rejects
(room full) or joins. -/
def handleMessage (env : Nat → SendOutcome) (st : ServerState) (ws : Nat)
    (msg : InMsg) : Result :=
  match msg with
  | .badJson =>
      unguardedSend env st [] ws
        (.error "Invalid data format. Please provide correct JSON")
  | .noRoomId =>
      unguardedSend env st [] ws (.error "Missing required parameter: room_id")
  | .valid data =>
      match lookupA st.rooms data.roomId with
      | none => createResult env st ws data.roomId
      | some room =>
          if ws ∈ room.clients then
            relayResult env st ws data.roomId room data
          else if 2 ≤ room.clients.length then
            fullResult env st ws data.roomId room
          else
            joinResult env st ws data.roomId room

/-- No room in the registry is empty. -/
def noEmptyRooms (st : ServerState) : Prop :=
  ∀ roomId room, lookupA st.rooms roomId = some room → room.clients ≠ []

/-- States reachable from the empty initial state by any interleaving of
message handling (any connection, any message, any send outcomes) and
cleanup (connection closure). -/
inductive Reachable : ServerState → Prop where
  | init : Reachable initialState
  | msg {st : ServerState} (env : Nat → SendOutcome) (ws : Nat) (m : InMsg) :
      Reachable st → Reachable (handleMessage env st ws m).state
  | cln {st : ServerState} (env : Nat → SendOutcome) (ws : Nat) :
      Reachable st → Reachable (cleanup_player env st ws).1

/-! ## Association-list lemmas -/

theorem lookupA_setA {α β : Type} [DecidableEq α] (l : List (α × β)) (k k' : α) (v : β) :
    lookupA (setA l k v) k' = if k' = k then some v else lookupA l k' := by
  induction l with
  | nil => simp [setA, lookupA]
  | cons hd tl ih =>
      obtain ⟨k0, v0⟩ := hd
      by_cases hk : k = k0
      · subst hk
        by_cases hk' : k' = k <;> simp [setA, lookupA, hk']
      · by_cases hk' : k' = k0
        · subst hk'
          simp [setA, lookupA, hk, Ne.symm hk]
        · simp [setA, lookupA, hk, hk', ih]

theorem lookupA_eraseA {α β : Type} [DecidableEq α] (l : List (α × β)) (k k' : α) :
    lookupA (eraseA l k) k' = if k' = k then none else lookupA l k' := by
  induction l with
  | nil => simp [eraseA, lookupA]
  | cons hd tl ih =>
      obtain ⟨k0, v0⟩ := hd
      by_cases hk : k = k0
      · subst hk
        by_cases hk' : k' = k
        · subst hk'
          simp [eraseA, lookupA, ih]
        · simp [eraseA, lookupA, hk', ih]
      · by_cases hk' : k' = k0
        · subst hk'
          simp [eraseA, lookupA, hk, Ne.symm hk, ih]
        · simp [eraseA, lookupA, hk, hk', ih]

theorem lookupA_eraseA_self {α β : Type} [DecidableEq α] (l : List (α × β)) (k : α) :
    lookupA (eraseA l k) k = none := by
  simp [lookupA_eraseA]

/-! ## Branch lemmas for `handleMessage` -/

theorem handleMessage_badJson (env : Nat → SendOutcome) (st : ServerState) (ws : Nat) :
    handleMessage env st ws .badJson =
      unguardedSend env st [] ws
        (.error "Invalid data format. Please provide correct JSON") := rfl

theorem handleMessage_noRoomId (env : Nat → SendOutcome) (st : ServerState) (ws : Nat) :
    handleMessage env st ws .noRoomId =
      unguardedSend env st [] ws (.error "Missing required parameter: room_id") := rfl

theorem handleMessage_create (env : Nat → SendOutcome) (st : ServerState) (ws : Nat)
    (data : MsgData) (h : lookupA st.rooms data.roomId = none) :
    handleMessage env st ws (.valid data) = createResult env st ws data.roomId := by
  simp [handleMessage, h]

theorem handleMessage_relay (env : Nat → SendOutcome) (st : ServerState) (ws : Nat)
    (data : MsgData) (room : Room) (h : lookupA st.rooms data.roomId = some room)
    (hmem : ws ∈ room.clients) :
    handleMessage env st ws (.valid data) =
      relayResult env st ws data.roomId room data := by
  simp [handleMessage, h, hmem]

theorem handleMessage_full (env : Nat → SendOutcome) (st : ServerState) (ws : Nat)
    (data : MsgData) (room : Room) (h : lookupA st.rooms data.roomId = some room)
    (hmem : ws ∉ room.clients) (hlen : 2 ≤ room.clients.length) :
    handleMessage env st ws (.valid data) =
      fullResult env st ws data.roomId room := by
  simp [handleMessage, h, hmem, hlen]

theorem handleMessage_join (env : Nat → SendOutcome) (st : ServerState) (ws : Nat)
    (data : MsgData) (room : Room) (h : lookupA st.rooms data.roomId = some room)
    (hmem : ws ∉ room.clients) (hlen : room.clients.length < 2) :
    handleMessage env st ws (.valid data) =
      joinResult env st ws data.roomId room := by
  have : ¬ 2 ≤ room.clients.length := by omega
  simp [handleMessage, h, hmem, this]

/-! ## State projections and invariant preservation -/

theorem unguardedSend_state (env : Nat → SendOutcome) (st : ServerState)
    (prev : List (Nat × OutMsg)) (ws : Nat) (m : OutMsg) :
    (unguardedSend env st prev ws m).state = st := by
  unfold unguardedSend
  split <;> rfl

theorem joinResult_state (env : Nat → SendOutcome) (st : ServerState) (ws : Nat)
    (roomId : String) (room : Room) :
    (joinResult env st ws roomId room).state =
      ⟨setA st.rooms roomId (joinedRoom room ws), setA st.clientRooms ws roomId⟩ := by
  unfold joinResult
  split <;> rfl

theorem cleanupMember_noEmpty (env : Nat → SendOutcome) (st : ServerState) (ws : Nat)
    (roomId : String) (room : Room) (h : noEmptyRooms st) :
    noEmptyRooms (cleanupMember env st ws roomId room).1 := by
  simp only [cleanupMember]
  split
  · intro rid r hlk
    rw [lookupA_eraseA] at hlk
    by_cases hrid : rid = roomId
    · simp [hrid] at hlk
    · rw [if_neg hrid] at hlk
      exact h rid r hlk
  · next hemp =>
    intro rid r hlk
    rw [lookupA_setA] at hlk
    by_cases hrid : rid = roomId
    · rw [if_pos hrid] at hlk
      cases hlk
      intro hnil
      apply hemp
      simpa using hnil
    · rw [if_neg hrid] at hlk
      exact h rid r hlk

theorem cleanup_preserves_noEmpty (env : Nat → SendOutcome) (st : ServerState)
    (ws : Nat) (h : noEmptyRooms st) :
    noEmptyRooms (cleanup_player env st ws).1 := by
  unfold cleanup_player
  split
  · exact h
  · split
    · exact h
    · split
      · exact cleanupMember_noEmpty _ _ _ _ _ h
      · exact h

theorem relayFold_noEmpty (env : Nat → SendOutcome) (ws : Nat) (data : MsgData)
    (pn : Nat) (cs : List Nat) (acc : RelayAcc) (h : noEmptyRooms acc.state) :
    noEmptyRooms ((cs.foldl (relayStep env ws data pn) acc).state) := by
  induction cs generalizing acc with
  | nil => exact h
  | cons c tl ih =>
      rw [List.foldl_cons]
      apply ih
      unfold relayStep
      split
      · exact h
      · split
        · exact h
        · exact cleanup_preserves_noEmpty _ _ _ h
        · exact h

theorem handleMessage_noEmpty (env : Nat → SendOutcome) (st : ServerState)
    (ws : Nat) (m : InMsg) (h : noEmptyRooms st) :
    noEmptyRooms (handleMessage env st ws m).state := by
  cases m with
  | badJson => rw [handleMessage_badJson, unguardedSend_state]; exact h
  | noRoomId => rw [handleMessage_noRoomId, unguardedSend_state]; exact h
  | valid data =>
      cases hr : lookupA st.rooms data.roomId with
      | none =>
          rw [handleMessage_create env st ws data hr]
          simp only [createResult]
          rw [unguardedSend_state]
          intro rid r hlk
          rw [lookupA_setA] at hlk
          by_cases hrid : rid = data.roomId
          · rw [if_pos hrid] at hlk
            cases hlk
            simp
          · rw [if_neg hrid] at hlk
            exact h rid r hlk
      | some room =>
          by_cases hmem : ws ∈ room.clients
          · rw [handleMessage_relay env st ws data room hr hmem]
            simp only [relayResult]
            split
            · exact h
            · rw [unguardedSend_state]
              exact relayFold_noEmpty _ _ _ _ _ _ h
          · by_cases hlen : 2 ≤ room.clients.length
            · rw [handleMessage_full env st ws data room hr hmem hlen]
              simp only [fullResult]
              rw [unguardedSend_state]
              exact h
            · rw [handleMessage_join env st ws data room hr hmem (by omega)]
              rw [joinResult_state]
              intro rid r hlk
              rw [lookupA_setA] at hlk
              by_cases hrid : rid = data.roomId
              · rw [if_pos hrid] at hlk
                cases hlk
                simp [joinedRoom]
              · rw [if_neg hrid] at hlk
                exact h rid r hlk

theorem reachable_noEmpty (st : ServerState) (h : Reachable st) : noEmptyRooms st := by
  induction h with
  | init =>
      intro rid r hlk
      simp [initialState, lookupA] at hlk
  | msg env ws m _ ih => exact handleMessage_noEmpty _ _ _ _ ih
  | cln env ws _ ih => exact cleanup_preserves_noEmpty _ _ _ ih

/-! ## Shared specification lemmas -/

/-- Full description of the create branch, shared by several claims. -/
theorem create_spec (env : Nat → SendOutcome) (st : ServerState) (ws : Nat)
    (data : MsgData) (hnew : lookupA st.rooms data.roomId = none)
    (hok : env ws = .ok) :
    handleMessage env st ws (.valid data) =
      ⟨⟨setA st.rooms data.roomId ⟨[ws], [(ws, 1)], [1]⟩,
        setA st.clientRooms ws data.roomId⟩,
       [(ws, .roomCreated data.roomId 1 1 2)], false⟩ := by
  rw [handleMessage_create env st ws data hnew]
  simp [createResult, unguardedSend, hok]

/-- After any `cleanup_player`, the connection is no longer in the reverse
index. -/
theorem cleanup_clientRooms_self (env : Nat → SendOutcome) (st : ServerState)
    (ws : Nat) :
    lookupA (cleanup_player env st ws).1.clientRooms ws = none := by
  simp only [cleanup_player]
  split
  · next h => exact h
  · split
    · exact lookupA_eraseA_self _ _
    · split
      · simp only [cleanupMember]
        split <;> exact lookupA_eraseA_self _ _
      · exact lookupA_eraseA_self _ _

/-! ## Claims -/

/-- C4: For every well-formed message whose session id is not in the
registry, a new session is created with the sending connection assigned
slot 1, the connection-to-session mapping is recorded, and the sender
receives a `RoomCreated` reply carrying the session id, `player_number=1`,
current count 1, and max 2. -/
theorem C4_create_unknown_session (env : Nat → SendOutcome) (st : ServerState)
    (ws : Nat) (data : MsgData) (hnew : lookupA st.rooms data.roomId = none)
    (hok : env ws = .ok) :
    handleMessage env st ws (.valid data) =
      ⟨⟨setA st.rooms data.roomId ⟨[ws], [(ws, 1)], [1]⟩,
        setA st.clientRooms ws data.roomId⟩,
       [(ws, .roomCreated data.roomId 1 1 2)], false⟩ ∧
    lookupA (handleMessage env st ws (.valid data)).state.rooms data.roomId =
      some ⟨[ws], [(ws, 1)], [1]⟩ ∧
    lookupA (handleMessage env st ws (.valid data)).state.clientRooms ws =
      some data.roomId := by
  have h := create_spec env st ws data hnew hok
  refine ⟨h, ?_, ?_⟩ <;> rw [h] <;> simp [lookupA_setA]

theorem C4_witness :
    lookupA initialState.rooms "r" = none ∧
    (fun _ : Nat => SendOutcome.ok) 1 = SendOutcome.ok ∧
    (handleMessage (fun _ => SendOutcome.ok) initialState 1 (.valid ⟨"r", "x"⟩) =
      ⟨⟨setA initialState.rooms "r" ⟨[1], [(1, 1)], [1]⟩,
        setA initialState.clientRooms 1 "r"⟩,
       [(1, .roomCreated "r" 1 1 2)], false⟩ ∧
    lookupA (handleMessage (fun _ => SendOutcome.ok) initialState 1
        (.valid ⟨"r", "x"⟩)).state.rooms "r" = some ⟨[1], [(1, 1)], [1]⟩ ∧
    lookupA (handleMessage (fun _ => SendOutcome.ok) initialState 1
        (.valid ⟨"r", "x"⟩)).state.clientRooms 1 = some "r") :=
  ⟨rfl, rfl,
   C4_create_unknown_session (fun _ => SendOutcome.ok) initialState 1 ⟨"r", "x"⟩
     rfl rfl⟩

/-- C6: For every session that already has 2 members, a join attempt by a
third distinct connection always receives a `RoomFull` reply carrying the
current and maximum member counts, and no session or registry state
changes. -/
theorem C6_room_full (env : Nat → SendOutcome) (st : ServerState) (ws : Nat)
    (data : MsgData) (room : Room)
    (hroom : lookupA st.rooms data.roomId = some room)
    (hmem : ws ∉ room.clients) (hfull : 2 ≤ room.clients.length)
    (hok : env ws = .ok) :
    handleMessage env st ws (.valid data) =
      ⟨st, [(ws, .roomFull data.roomId room.clients.length 2)], false⟩ := by
  rw [handleMessage_full env st ws data room hroom hmem hfull]
  simp [fullResult, unguardedSend, hok]

theorem C6_witness :
    lookupA (ServerState.mk [("r", ⟨[1, 2], [(1, 1), (2, 2)], [1, 2]⟩)]
        [(1, "r"), (2, "r")]).rooms "r" = some ⟨[1, 2], [(1, 1), (2, 2)], [1, 2]⟩ ∧
    (3 : Nat) ∉ [1, 2] ∧ (2 : Nat) ≤ 2 ∧
    handleMessage (fun _ => SendOutcome.ok)
        ⟨[("r", ⟨[1, 2], [(1, 1), (2, 2)], [1, 2]⟩)], [(1, "r"), (2, "r")]⟩ 3
        (.valid ⟨"r", "x"⟩) =
      ⟨⟨[("r", ⟨[1, 2], [(1, 1), (2, 2)], [1, 2]⟩)], [(1, "r"), (2, "r")]⟩,
       [(3, .roomFull "r" 2 2)], false⟩ :=
  ⟨rfl, by decide, by decide,
   C6_room_full (fun _ => SendOutcome.ok)
     ⟨[("r", ⟨[1, 2], [(1, 1), (2, 2)], [1, 2]⟩)], [(1, "r"), (2, "r")]⟩ 3
     ⟨"r", "x"⟩ ⟨[1, 2], [(1, 1), (2, 2)], [1, 2]⟩ rfl (by decide) (by decide) rfl⟩

/-- C8: For every inbound message that is not a well-formed envelope, the
sender receives an `error` reply, all session and registry state is left
unchanged, and the connection's message loop continues (the result is not
crashed). -/
theorem C8_malformed_input (env : Nat → SendOutcome) (st : ServerState)
    (ws : Nat) (hok : env ws = .ok) :
    handleMessage env st ws .badJson =
      ⟨st, [(ws, .error "Invalid data format. Please provide correct JSON")],
       false⟩ ∧
    handleMessage env st ws .noRoomId =
      ⟨st, [(ws, .error "Missing required parameter: room_id")], false⟩ := by
  constructor <;> simp [handleMessage, unguardedSend, hok]

theorem C8_witness :
    (fun _ : Nat => SendOutcome.ok) 7 = SendOutcome.ok ∧
    (handleMessage (fun _ => SendOutcome.ok) initialState 7 .badJson =
      ⟨initialState,
       [(7, .error "Invalid data format. Please provide correct JSON")],
       false⟩ ∧
    handleMessage (fun _ => SendOutcome.ok) initialState 7 .noRoomId =
      ⟨initialState, [(7, .error "Missing required parameter: room_id")],
       false⟩) :=
  ⟨rfl, C8_malformed_input (fun _ => SendOutcome.ok) initialState 7 rfl⟩

/-- C9: Cleanup is idempotent: for a connection already absent from the
connection-to-session mapping, invoking cleanup returns immediately with
no effect, and a second invocation after any cleanup is a no-op. -/
theorem C9_cleanup_idempotent (env : Nat → SendOutcome) (st : ServerState)
    (ws : Nat) (h : lookupA st.clientRooms ws = none) :
    cleanup_player env st ws = (st, []) ∧
    cleanup_player env (cleanup_player env st ws).1 ws =
      ((cleanup_player env st ws).1, []) := by
  have h1 : cleanup_player env st ws = (st, []) := by
    simp [cleanup_player, h]
  exact ⟨h1, by rw [h1]; simp [cleanup_player, h]⟩

theorem C9_witness :
    lookupA (ServerState.mk [("r", ⟨[2], [(2, 2)], [2]⟩)] [(2, "r")]).clientRooms
      9 = none ∧
    (cleanup_player (fun _ => SendOutcome.ok)
        ⟨[("r", ⟨[2], [(2, 2)], [2]⟩)], [(2, "r")]⟩ 9 =
      (⟨[("r", ⟨[2], [(2, 2)], [2]⟩)], [(2, "r")]⟩, []) ∧
    cleanup_player (fun _ => SendOutcome.ok)
        (cleanup_player (fun _ => SendOutcome.ok)
          ⟨[("r", ⟨[2], [(2, 2)], [2]⟩)], [(2, "r")]⟩ 9).1 9 =
      ((cleanup_player (fun _ => SendOutcome.ok)
          ⟨[("r", ⟨[2], [(2, 2)], [2]⟩)], [(2, "r")]⟩ 9).1, [])) :=
  ⟨by decide,
   C9_cleanup_idempotent (fun _ => SendOutcome.ok)
     ⟨[("r", ⟨[2], [(2, 2)], [2]⟩)], [(2, "r")]⟩ 9 (by decide)⟩

/-- C10: In the join branch, when the session has fewer than 2 members,
the computed list of available slot numbers is non-empty, so the fallback
assigning slot 2 when no number is available is unreachable and the
minimum is taken of a non-empty list.  (The distinctness part of the
invariant is not even needed.) -/
theorem C10_available_nonempty (room : Room) (hlen : room.clients.length < 2) :
    availableNumbers room ≠ [] ∧
    ∃ a, (availableNumbers room).min? = some a ∧ assignedNumber room = a := by
  have hne : availableNumbers room ≠ [] := by
    intro hav
    have h1 : (1 : Nat) ∈ takenNumbers room := by
      by_contra hc
      have hmem : (1 : Nat) ∈ availableNumbers room := by
        simp [availableNumbers, hc]
      rw [hav] at hmem
      simp at hmem
    have h2 : (2 : Nat) ∈ takenNumbers room := by
      by_contra hc
      have hmem : (2 : Nat) ∈ availableNumbers room := by
        simp [availableNumbers, hc]
      rw [hav] at hmem
      simp at hmem
    have hlt : (takenNumbers room).length < 2 := by
      simpa [takenNumbers] using hlen
    rcases htk : takenNumbers room with _ | ⟨x, _ | ⟨y, tl⟩⟩
    · rw [htk] at h1
      simp at h1
    · rw [htk] at h1 h2
      simp at h1 h2
      omega
    · rw [htk] at hlt
      simp at hlt
      omega
  refine ⟨hne, ?_⟩
  cases havn : (availableNumbers room).min? with
  | none => exact absurd (List.min?_eq_none_iff.mp havn) hne
  | some a => exact ⟨a, rfl, by simp [assignedNumber, havn]⟩

theorem C10_witness :
    (Room.mk [5] [(5, 1)] [1]).clients.length < 2 ∧
    (availableNumbers ⟨[5], [(5, 1)], [1]⟩ ≠ [] ∧
     ∃ a, (availableNumbers ⟨[5], [(5, 1)], [1]⟩).min? = some a ∧
       assignedNumber ⟨[5], [(5, 1)], [1]⟩ = a) :=
  ⟨by decide, C10_available_nonempty ⟨[5], [(5, 1)], [1]⟩ (by decide)⟩

/-! ## Join-branch helpers -/

/-- In a one-member room holding number `m` ∈ {1,2}, the joiner is
assigned the other number. -/
theorem assignedNumber_one_member (c m : Nat) (used : List Nat)
    (hm : m = 1 ∨ m = 2) :
    assignedNumber ⟨[c], [(c, m)], used⟩ = if m = 1 then 2 else 1 := by
  rcases hm with rfl | rfl <;>
    simp [assignedNumber, availableNumbers, takenNumbers, lookupA, List.min?]

/-- The joiner's entry in the joined room's `players` dict. -/
theorem joinedRoom_players_self (room : Room) (ws : Nat) :
    lookupA (joinedRoom room ws).players ws = some (assignedNumber room) := by
  simp [joinedRoom, lookupA_setA]

/-- Joining a room known to hold exactly one other member reduces to
`joinResult`, and the registry afterwards holds the joined room. -/
theorem join_one_member (env : Nat → SendOutcome) (st : ServerState)
    (ws c m : Nat) (used : List Nat) (data : MsgData)
    (hroom : lookupA st.rooms data.roomId = some ⟨[c], [(c, m)], used⟩)
    (hne : ws ≠ c) :
    handleMessage env st ws (.valid data) =
      joinResult env st ws data.roomId ⟨[c], [(c, m)], used⟩ ∧
    lookupA (handleMessage env st ws (.valid data)).state.rooms data.roomId =
      some (joinedRoom ⟨[c], [(c, m)], used⟩ ws) := by
  have h1 : handleMessage env st ws (.valid data) =
      joinResult env st ws data.roomId ⟨[c], [(c, m)], used⟩ :=
    handleMessage_join env st ws data _ hroom (by simp [hne]) (by simp)
  refine ⟨h1, ?_⟩
  rw [h1, joinResult_state]
  simp [lookupA_setA]

/-- Cleanup of the first member of a two-member room: the room stays
registered, holding only the second member, with the first member's
number released from both `players` and `used_player_numbers`. -/
theorem cleanup_two_member_first (env : Nat → SendOutcome) (st : ServerState)
    (c d m mo : Nat) (used : List Nat) (roomId : String)
    (hcr : lookupA st.clientRooms c = some roomId)
    (hroom : lookupA st.rooms roomId = some ⟨[c, d], [(c, m), (d, mo)], used⟩)
    (hcd : c ≠ d) :
    (cleanup_player env st c).1 =
      ⟨setA st.rooms roomId ⟨[d], [(d, mo)], used.erase m⟩,
       eraseA st.clientRooms c⟩ := by
  simp only [cleanup_player, hcr, hroom]
  rw [if_pos (by simp)]
  simp [cleanupMember, lookupA, eraseA, hcd, List.erase_cons_head]

/-- C3: Whenever a non-member connection joins a session with exactly one
member, it is assigned the smallest slot number in {1,2} not currently
occupied; in particular, after a member disconnects and its number is
released, the next joiner to that session receives exactly that released
number. -/
theorem C3_smallest_free_slot :
    (∀ (env : Nat → SendOutcome) (st : ServerState) (ws c m : Nat)
       (used : List Nat) (data : MsgData),
       lookupA st.rooms data.roomId = some ⟨[c], [(c, m)], used⟩ →
       (m = 1 ∨ m = 2) → ws ≠ c →
       assignedNumber ⟨[c], [(c, m)], used⟩ = (if m = 1 then 2 else 1) ∧
       assignedNumber ⟨[c], [(c, m)], used⟩ ∉ takenNumbers ⟨[c], [(c, m)], used⟩ ∧
       (assignedNumber ⟨[c], [(c, m)], used⟩ = 1 ∨
        assignedNumber ⟨[c], [(c, m)], used⟩ = 2) ∧
       (∀ k, (k = 1 ∨ k = 2) → k ∉ takenNumbers ⟨[c], [(c, m)], used⟩ →
         assignedNumber ⟨[c], [(c, m)], used⟩ ≤ k) ∧
       lookupA (handleMessage env st ws (.valid data)).state.rooms data.roomId =
         some (joinedRoom ⟨[c], [(c, m)], used⟩ ws) ∧
       lookupA (joinedRoom ⟨[c], [(c, m)], used⟩ ws).players ws =
         some (assignedNumber ⟨[c], [(c, m)], used⟩)) ∧
    (∀ (env : Nat → SendOutcome) (st : ServerState) (ws c d m mo : Nat)
       (used : List Nat) (data : MsgData),
       lookupA st.clientRooms c = some data.roomId →
       lookupA st.rooms data.roomId = some ⟨[c, d], [(c, m), (d, mo)], used⟩ →
       (m = 1 ∨ m = 2) → (mo = 1 ∨ mo = 2) → m ≠ mo →
       c ≠ d → ws ≠ c → ws ≠ d →
       lookupA (cleanup_player env st c).1.rooms data.roomId =
         some ⟨[d], [(d, mo)], used.erase m⟩ ∧
       m ∉ takenNumbers ⟨[d], [(d, mo)], used.erase m⟩ ∧
       assignedNumber ⟨[d], [(d, mo)], used.erase m⟩ = m ∧
       lookupA (handleMessage env (cleanup_player env st c).1 ws
           (.valid data)).state.rooms data.roomId =
         some (joinedRoom ⟨[d], [(d, mo)], used.erase m⟩ ws) ∧
       lookupA (joinedRoom ⟨[d], [(d, mo)], used.erase m⟩ ws).players ws =
         some m) := by
  constructor
  · intro env st ws c m used data hroom hm hne
    have hassign := assignedNumber_one_member c m used hm
    have htaken : takenNumbers ⟨[c], [(c, m)], used⟩ = [m] := by
      simp [takenNumbers, lookupA]
    refine ⟨hassign, ?_, ?_, ?_, (join_one_member env st ws c m used data hroom hne).2,
      joinedRoom_players_self _ _⟩
    · rw [hassign, htaken]
      rcases hm with rfl | rfl <;> simp
    · rw [hassign]
      rcases hm with rfl | rfl <;> simp
    · intro k hk hkt
      rw [htaken] at hkt
      rw [hassign]
      rcases hm with rfl | rfl <;> rcases hk with rfl | rfl <;> simp_all
  · intro env st ws c d m mo used data hcr hroom hm hmo hmne hcd hwc hwd
    have hcl := cleanup_two_member_first env st c d m mo used data.roomId hcr hroom hcd
    have hlk1 : lookupA (cleanup_player env st c).1.rooms data.roomId =
        some ⟨[d], [(d, mo)], used.erase m⟩ := by
      rw [hcl]
      simp [lookupA_setA]
    have htaken : takenNumbers ⟨[d], [(d, mo)], used.erase m⟩ = [mo] := by
      simp [takenNumbers, lookupA]
    have hassign : assignedNumber ⟨[d], [(d, mo)], used.erase m⟩ = m := by
      rw [assignedNumber_one_member d mo (used.erase m) hmo]
      rcases hmo with rfl | rfl <;> rcases hm with rfl | rfl <;> simp_all
    refine ⟨hlk1, ?_, hassign, ?_, ?_⟩
    · rw [htaken]
      simp [hmne]
    · exact (join_one_member env (cleanup_player env st c).1 ws d mo (used.erase m)
        data hlk1 hwd).2
    · rw [joinedRoom_players_self, hassign]

theorem C3_witness :
    (lookupA (ServerState.mk [("r", ⟨[4], [(4, 2)], [2]⟩)] [(4, "r")]).rooms "r" =
       some ⟨[4], [(4, 2)], [2]⟩ ∧ ((2 : Nat) = 1 ∨ (2 : Nat) = 2) ∧ (7 : Nat) ≠ 4 ∧
     (assignedNumber ⟨[4], [(4, 2)], [2]⟩ = (if (2 : Nat) = 1 then 2 else 1) ∧
      assignedNumber ⟨[4], [(4, 2)], [2]⟩ ∉ takenNumbers ⟨[4], [(4, 2)], [2]⟩ ∧
      (assignedNumber ⟨[4], [(4, 2)], [2]⟩ = 1 ∨
       assignedNumber ⟨[4], [(4, 2)], [2]⟩ = 2) ∧
      (∀ k, (k = 1 ∨ k = 2) → k ∉ takenNumbers ⟨[4], [(4, 2)], [2]⟩ →
        assignedNumber ⟨[4], [(4, 2)], [2]⟩ ≤ k) ∧
      lookupA (handleMessage (fun _ => SendOutcome.ok)
          ⟨[("r", ⟨[4], [(4, 2)], [2]⟩)], [(4, "r")]⟩ 7
          (.valid ⟨"r", "x"⟩)).state.rooms "r" =
        some (joinedRoom ⟨[4], [(4, 2)], [2]⟩ 7) ∧
      lookupA (joinedRoom ⟨[4], [(4, 2)], [2]⟩ 7).players 7 =
        some (assignedNumber ⟨[4], [(4, 2)], [2]⟩))) ∧
    (lookupA (ServerState.mk
        [("r", ⟨[1, 2], [(1, 1), (2, 2)], [1, 2]⟩)]
        [(1, "r"), (2, "r")]).clientRooms 1 = some "r" ∧
     (lookupA (cleanup_player (fun _ => SendOutcome.ok)
          ⟨[("r", ⟨[1, 2], [(1, 1), (2, 2)], [1, 2]⟩)], [(1, "r"), (2, "r")]⟩
          1).1.rooms "r" = some ⟨[2], [(2, 2)], [1, 2].erase 1⟩ ∧
      (1 : Nat) ∉ takenNumbers ⟨[2], [(2, 2)], [1, 2].erase 1⟩ ∧
      assignedNumber ⟨[2], [(2, 2)], [1, 2].erase 1⟩ = 1 ∧
      lookupA (handleMessage (fun _ => SendOutcome.ok)
          (cleanup_player (fun _ => SendOutcome.ok)
            ⟨[("r", ⟨[1, 2], [(1, 1), (2, 2)], [1, 2]⟩)], [(1, "r"), (2, "r")]⟩
            1).1 3 (.valid ⟨"r", "x"⟩)).state.rooms "r" =
        some (joinedRoom ⟨[2], [(2, 2)], [1, 2].erase 1⟩ 3) ∧
      lookupA (joinedRoom ⟨[2], [(2, 2)], [1, 2].erase 1⟩ 3).players 3 =
        some 1)) :=
  ⟨⟨rfl, by decide, by decide,
    C3_smallest_free_slot.1 (fun _ => SendOutcome.ok)
      ⟨[("r", ⟨[4], [(4, 2)], [2]⟩)], [(4, "r")]⟩ 7 4 2 [2] ⟨"r", "x"⟩
      rfl (by decide) (by decide)⟩,
   ⟨rfl,
    C3_smallest_free_slot.2 (fun _ => SendOutcome.ok)
      ⟨[("r", ⟨[1, 2], [(1, 1), (2, 2)], [1, 2]⟩)], [(1, "r"), (2, "r")]⟩ 3 1 2 1 2
      [1, 2] ⟨"r", "x"⟩ rfl rfl (by decide) (by decide) (by decide) (by decide)
      (by decide) (by decide)⟩⟩

/-- C5: For every two-member session, a relay from one member forwards the
entire original decoded payload, unmodified and wrapped in a
`DataTransfer` envelope tagged with the sender's slot number, to the other
member exactly once, after which the sender receives a `DataReceived`
acknowledgment with the count of successful forwards and the current
member count; a sole member still gets the acknowledgment with count 0
and no error.  (Both orders of the two members in the client list are
covered.) -/
theorem C5_relay_forward :
    (∀ (env : Nat → SendOutcome) (st : ServerState) (ws other m mo : Nat)
       (used : List Nat) (data : MsgData),
       lookupA st.rooms data.roomId =
         some ⟨[ws, other], [(ws, m), (other, mo)], used⟩ →
       ws ≠ other → env ws = .ok → env other = .ok →
       handleMessage env st ws (.valid data) =
         ⟨st, [(other, .dataTransfer data m), (ws, .dataReceived data.roomId 1 2)],
          false⟩) ∧
    (∀ (env : Nat → SendOutcome) (st : ServerState) (ws other m mo : Nat)
       (used : List Nat) (data : MsgData),
       lookupA st.rooms data.roomId =
         some ⟨[other, ws], [(other, mo), (ws, m)], used⟩ →
       ws ≠ other → env ws = .ok → env other = .ok →
       handleMessage env st ws (.valid data) =
         ⟨st, [(other, .dataTransfer data m), (ws, .dataReceived data.roomId 1 2)],
          false⟩) ∧
    (∀ (env : Nat → SendOutcome) (st : ServerState) (ws m : Nat)
       (used : List Nat) (data : MsgData),
       lookupA st.rooms data.roomId = some ⟨[ws], [(ws, m)], used⟩ →
       env ws = .ok →
       handleMessage env st ws (.valid data) =
         ⟨st, [(ws, .dataReceived data.roomId 0 1)], false⟩) := by
  refine ⟨?_, ?_, ?_⟩
  · intro env st ws other m mo used data hroom hne hok hoko
    rw [handleMessage_relay env st ws data _ hroom (by simp)]
    simp [relayResult, relayStep, lookupA, unguardedSend, hok, hoko, hne,
      Ne.symm hne, hroom]
  · intro env st ws other m mo used data hroom hne hok hoko
    rw [handleMessage_relay env st ws data _ hroom (by simp)]
    simp [relayResult, relayStep, lookupA, unguardedSend, hok, hoko, hne,
      Ne.symm hne, hroom]
  · intro env st ws m used data hroom hok
    rw [handleMessage_relay env st ws data _ hroom (by simp)]
    simp [relayResult, relayStep, lookupA, unguardedSend, hok, hroom]

theorem C5_witness :
    (lookupA (ServerState.mk [("r", ⟨[1, 2], [(1, 1), (2, 2)], [1, 2]⟩)]
        [(1, "r"), (2, "r")]).rooms "r" =
      some ⟨[1, 2], [(1, 1), (2, 2)], [1, 2]⟩ ∧
     handleMessage (fun _ => SendOutcome.ok)
        ⟨[("r", ⟨[1, 2], [(1, 1), (2, 2)], [1, 2]⟩)], [(1, "r"), (2, "r")]⟩ 1
        (.valid ⟨"r", "move"⟩) =
      ⟨⟨[("r", ⟨[1, 2], [(1, 1), (2, 2)], [1, 2]⟩)], [(1, "r"), (2, "r")]⟩,
       [(2, .dataTransfer ⟨"r", "move"⟩ 1), (1, .dataReceived "r" 1 2)],
       false⟩) ∧
    (lookupA (ServerState.mk [("r", ⟨[2, 1], [(2, 2), (1, 1)], [2, 1]⟩)]
        [(2, "r"), (1, "r")]).rooms "r" =
      some ⟨[2, 1], [(2, 2), (1, 1)], [2, 1]⟩ ∧
     handleMessage (fun _ => SendOutcome.ok)
        ⟨[("r", ⟨[2, 1], [(2, 2), (1, 1)], [2, 1]⟩)], [(2, "r"), (1, "r")]⟩ 1
        (.valid ⟨"r", "move"⟩) =
      ⟨⟨[("r", ⟨[2, 1], [(2, 2), (1, 1)], [2, 1]⟩)], [(2, "r"), (1, "r")]⟩,
       [(2, .dataTransfer ⟨"r", "move"⟩ 1), (1, .dataReceived "r" 1 2)],
       false⟩) ∧
    (lookupA (ServerState.mk [("r", ⟨[1], [(1, 1)], [1]⟩)] [(1, "r")]).rooms "r" =
      some ⟨[1], [(1, 1)], [1]⟩ ∧
     handleMessage (fun _ => SendOutcome.ok)
        ⟨[("r", ⟨[1], [(1, 1)], [1]⟩)], [(1, "r")]⟩ 1 (.valid ⟨"r", "move"⟩) =
      ⟨⟨[("r", ⟨[1], [(1, 1)], [1]⟩)], [(1, "r")]⟩,
       [(1, .dataReceived "r" 0 1)], false⟩) :=
  ⟨⟨rfl, C5_relay_forward.1 (fun _ => SendOutcome.ok)
      ⟨[("r", ⟨[1, 2], [(1, 1), (2, 2)], [1, 2]⟩)], [(1, "r"), (2, "r")]⟩ 1 2 1 2
      [1, 2] ⟨"r", "move"⟩ rfl (by decide) rfl rfl⟩,
   ⟨rfl, C5_relay_forward.2.1 (fun _ => SendOutcome.ok)
      ⟨[("r", ⟨[2, 1], [(2, 2), (1, 1)], [2, 1]⟩)], [(2, "r"), (1, "r")]⟩ 1 2 1 2
      [2, 1] ⟨"r", "move"⟩ rfl (by decide) rfl rfl⟩,
   ⟨rfl, C5_relay_forward.2.2 (fun _ => SendOutcome.ok)
      ⟨[("r", ⟨[1], [(1, 1)], [1]⟩)], [(1, "r")]⟩ 1 1 [1] ⟨"r", "move"⟩
      rfl rfl⟩⟩

/-- C7: In every reachable state, no registered session is empty; the
moment cleanup removes a session's last member the session leaves the
registry, and a subsequent message with the same id creates a fresh
session whose creator receives slot 1. -/
theorem C7_no_empty_session (env : Nat → SendOutcome) (st : ServerState)
    (h : Reachable st) (roomId : String) (room : Room) (ws ws' : Nat)
    (data : MsgData) :
    noEmptyRooms st ∧
    (lookupA st.clientRooms ws = some roomId →
     lookupA st.rooms roomId = some room → room.clients = [ws] →
     lookupA (cleanup_player env st ws).1.rooms roomId = none ∧
     lookupA (cleanup_player env st ws).1.clientRooms ws = none) ∧
    (∀ st' : ServerState, lookupA st'.rooms data.roomId = none →
     env ws' = .ok →
     handleMessage env st' ws' (.valid data) =
       ⟨⟨setA st'.rooms data.roomId ⟨[ws'], [(ws', 1)], [1]⟩,
         setA st'.clientRooms ws' data.roomId⟩,
        [(ws', .roomCreated data.roomId 1 1 2)], false⟩) := by
  refine ⟨reachable_noEmpty st h, ?_, ?_⟩
  · intro hcr hroom hclients
    refine ⟨?_, cleanup_clientRooms_self env st ws⟩
    simp only [cleanup_player, hcr, hroom]
    rw [if_pos (by rw [hclients]; simp)]
    simp only [cleanupMember]
    rw [hclients]
    simp [lookupA_eraseA_self]
  · intro st' hnone hok
    exact create_spec env st' ws' data hnone hok

theorem C7_witness :
    Reachable (handleMessage (fun _ => SendOutcome.ok) initialState 1
      (.valid ⟨"r", ""⟩)).state ∧
    (noEmptyRooms (handleMessage (fun _ => SendOutcome.ok) initialState 1
        (.valid ⟨"r", ""⟩)).state ∧
     (lookupA (handleMessage (fun _ => SendOutcome.ok) initialState 1
          (.valid ⟨"r", ""⟩)).state.clientRooms 1 = some "r" →
      lookupA (handleMessage (fun _ => SendOutcome.ok) initialState 1
          (.valid ⟨"r", ""⟩)).state.rooms "r" = some ⟨[1], [(1, 1)], [1]⟩ →
      (Room.mk [1] [(1, 1)] [1]).clients = [1] →
      lookupA (cleanup_player (fun _ => SendOutcome.ok)
          (handleMessage (fun _ => SendOutcome.ok) initialState 1
            (.valid ⟨"r", ""⟩)).state 1).1.rooms "r" = none ∧
      lookupA (cleanup_player (fun _ => SendOutcome.ok)
          (handleMessage (fun _ => SendOutcome.ok) initialState 1
            (.valid ⟨"r", ""⟩)).state 1).1.clientRooms 1 = none) ∧
     (∀ st' : ServerState, lookupA st'.rooms "r2" = none →
      (fun _ : Nat => SendOutcome.ok) 2 = SendOutcome.ok →
      handleMessage (fun _ => SendOutcome.ok) st' 2 (.valid ⟨"r2", "y"⟩) =
        ⟨⟨setA st'.rooms "r2" ⟨[2], [(2, 1)], [1]⟩,
          setA st'.clientRooms 2 "r2"⟩,
         [(2, .roomCreated "r2" 1 1 2)], false⟩)) :=
  ⟨Reachable.msg (fun _ => SendOutcome.ok) 1 (.valid ⟨"r", ""⟩) Reachable.init,
   C7_no_empty_session (fun _ => SendOutcome.ok) _
     (Reachable.msg (fun _ => SendOutcome.ok) 1 (.valid ⟨"r", ""⟩) Reachable.init)
     "r" ⟨[1], [(1, 1)], [1]⟩ 1 2 ⟨"r2", "y"⟩⟩

/-- C1 is refuted: after slot 1 is released and re-assigned while slot 2
stays taken (create by 1, join by 2, disconnect of 1, join by 3), the
`players` field sent in both `RoomJoined` and `PlayerJoined` is `[2, 1]` —
dict-insertion order — while the sorted list of occupied numbers is
`[1, 2]`. -/
theorem C1_counterexample :
    (handleMessage (fun _ => SendOutcome.ok)
        (cleanup_player (fun _ => SendOutcome.ok)
          (handleMessage (fun _ => SendOutcome.ok)
            (handleMessage (fun _ => SendOutcome.ok) initialState 1
              (.valid ⟨"r", ""⟩)).state 2 (.valid ⟨"r", ""⟩)).state 1).1 3
        (.valid ⟨"r", ""⟩)).sent =
      [(3, .roomJoined "r" 1 2 2 [2, 1]), (2, .playerJoined "r" 1 2 [2, 1])] ∧
    ([2, 1] : List Nat) ≠ [1, 2] := by
  exact ⟨rfl, by decide⟩

/-- C1 (amended): the `players` field carried by the `RoomJoined` reply
and the `PlayerJoined` broadcast is the list of occupied slot numbers in
join (dict-insertion) order — the existing member's number first, the
joiner's last — a permutation of the occupied numbers, but not
necessarily sorted. -/
theorem C1_players_insertion_order (env : Nat → SendOutcome) (st : ServerState)
    (ws c m : Nat) (used : List Nat) (data : MsgData)
    (hroom : lookupA st.rooms data.roomId = some ⟨[c], [(c, m)], used⟩)
    (hm : m = 1 ∨ m = 2) (hne : ws ≠ c) (hok : env ws = .ok)
    (hokc : env c = .ok) :
    (handleMessage env st ws (.valid data)).sent =
      [(ws, .roomJoined data.roomId (if m = 1 then 2 else 1) 2 2
          [m, if m = 1 then 2 else 1]),
       (c, .playerJoined data.roomId (if m = 1 then 2 else 1) 2
          [m, if m = 1 then 2 else 1])] ∧
    ([m, if m = 1 then 2 else 1] : List Nat).Perm [1, 2] := by
  have ha := assignedNumber_one_member c m used hm
  have h1 := (join_one_member env st ws c m used data hroom hne).1
  constructor
  · rw [h1]
    simp [joinResult, joinedRoom, setA, hne, Ne.symm hne, hok, hokc, ha]
  · rcases hm with rfl | rfl <;> first | rfl | decide

theorem C1_amended_witness :
    lookupA (ServerState.mk [("r", ⟨[4], [(4, 2)], [2]⟩)] [(4, "r")]).rooms "r" =
      some ⟨[4], [(4, 2)], [2]⟩ ∧ ((2 : Nat) = 1 ∨ (2 : Nat) = 2) ∧
    (7 : Nat) ≠ 4 ∧
    ((handleMessage (fun _ => SendOutcome.ok)
        ⟨[("r", ⟨[4], [(4, 2)], [2]⟩)], [(4, "r")]⟩ 7 (.valid ⟨"r", "x"⟩)).sent =
      [(7, .roomJoined "r" (if (2 : Nat) = 1 then 2 else 1) 2 2
          [2, if (2 : Nat) = 1 then 2 else 1]),
       (4, .playerJoined "r" (if (2 : Nat) = 1 then 2 else 1) 2
          [2, if (2 : Nat) = 1 then 2 else 1])] ∧
     ([2, if (2 : Nat) = 1 then 2 else 1] : List Nat).Perm [1, 2]) :=
  ⟨rfl, by decide, by decide,
   C1_players_insertion_order (fun _ => SendOutcome.ok)
     ⟨[("r", ⟨[4], [(4, 2)], [2]⟩)], [(4, "r")]⟩ 7 4 2 [2] ⟨"r", "x"⟩
     rfl (by decide) (by decide) rfl rfl⟩

/-- Cleanup of the second-listed member of a two-member room, with the
delivered `player_left` broadcast. -/
theorem cleanup_two_member_second (env : Nat → SendOutcome) (st : ServerState)
    (ws other m mo : Nat) (used : List Nat) (roomId : String)
    (hcr : lookupA st.clientRooms other = some roomId)
    (hroom : lookupA st.rooms roomId =
      some ⟨[ws, other], [(ws, m), (other, mo)], used⟩)
    (hne : ws ≠ other) :
    cleanup_player env st other =
      (⟨setA st.rooms roomId ⟨[ws], [(ws, m)], used.erase mo⟩,
        eraseA st.clientRooms other⟩,
       if env ws = .ok then [(ws, .playerLeft roomId (some mo) 1 [m])]
       else []) := by
  by_cases henv : env ws = SendOutcome.ok <;>
    simp [cleanup_player, hcr, hroom, cleanupMember, lookupA, eraseA, hne,
      Ne.symm hne, henv, List.erase_cons, List.erase_cons_head]

/-- The `player_left` messages delivered when the first-listed member of a
two-member room is cleaned up. -/
theorem cleanup_two_member_first_sent (env : Nat → SendOutcome)
    (st : ServerState) (c d m mo : Nat) (used : List Nat) (roomId : String)
    (hcr : lookupA st.clientRooms c = some roomId)
    (hroom : lookupA st.rooms roomId = some ⟨[c, d], [(c, m), (d, mo)], used⟩)
    (hcd : c ≠ d) :
    (cleanup_player env st c).2 =
      if env d = .ok then [(d, .playerLeft roomId (some m) 1 [mo])] else [] := by
  by_cases henv : env d = SendOutcome.ok <;>
    simp [cleanup_player, hcr, hroom, cleanupMember, lookupA, eraseA, hcd,
      Ne.symm hcd, henv, List.erase_cons, List.erase_cons_head]

/-- C2 is refuted: during the `PlayerJoined` broadcast after a join, a
send failure to the peer (connection 1 reports closed) does NOT trigger
that peer's cleanup — it stays in `client_rooms` and in the room — though
the join itself completes for the joiner. -/
theorem C2_counterexample :
    (handleMessage (fun c => if c = 1 then SendOutcome.closed else .ok)
        (handleMessage (fun _ => SendOutcome.ok) initialState 1
          (.valid ⟨"r", ""⟩)).state 2 (.valid ⟨"r", ""⟩)).crashed = false ∧
    lookupA (handleMessage (fun c => if c = 1 then SendOutcome.closed else .ok)
        (handleMessage (fun _ => SendOutcome.ok) initialState 1
          (.valid ⟨"r", ""⟩)).state 2 (.valid ⟨"r", ""⟩)).state.clientRooms 1 =
      some "r" ∧
    lookupA (handleMessage (fun c => if c = 1 then SendOutcome.closed else .ok)
        (handleMessage (fun _ => SendOutcome.ok) initialState 1
          (.valid ⟨"r", ""⟩)).state 2 (.valid ⟨"r", ""⟩)).state.rooms "r" =
      some ⟨[1, 2], [(1, 1), (2, 2)], [1, 2]⟩ :=
  ⟨rfl, rfl, rfl⟩

/-- C2 (amended): a send failure to a peer never fails the triggering
operation for the original sender; but only the relay forward treats a
failure — and only a `ConnectionClosed` one — as the peer's disconnection
and cleans that peer up.  The `PlayerJoined` and `PlayerLeft` broadcasts
log a failed send and leave the peer in place, and a non-closure failure
during relay forwarding is likewise only logged. -/
theorem C2_delivery_failure :
    -- (a) relay forward, peer closed: peer cleaned up, sender still acked
    (∀ (env : Nat → SendOutcome) (st : ServerState) (ws other m mo : Nat)
       (used : List Nat) (data : MsgData),
       lookupA st.rooms data.roomId =
         some ⟨[ws, other], [(ws, m), (other, mo)], used⟩ →
       lookupA st.clientRooms other = some data.roomId →
       ws ≠ other → env ws = .ok → env other = .closed →
       handleMessage env st ws (.valid data) =
         ⟨⟨setA st.rooms data.roomId ⟨[ws], [(ws, m)], used.erase mo⟩,
           eraseA st.clientRooms other⟩,
          [(ws, .playerLeft data.roomId (some mo) 1 [m]),
           (ws, .dataReceived data.roomId 0 1)], false⟩) ∧
    -- (b) PlayerJoined broadcast failure: no cleanup of the peer,
    --     and the join completes for the joiner
    (∀ (env : Nat → SendOutcome) (st : ServerState) (ws c m : Nat)
       (used : List Nat) (data : MsgData),
       lookupA st.rooms data.roomId = some ⟨[c], [(c, m)], used⟩ →
       lookupA st.clientRooms c = some data.roomId →
       ws ≠ c → env ws = .ok → env c ≠ .ok →
       (handleMessage env st ws (.valid data)).crashed = false ∧
       (handleMessage env st ws (.valid data)).sent =
         [(ws, .roomJoined data.roomId (assignedNumber ⟨[c], [(c, m)], used⟩)
             2 2 [m, assignedNumber ⟨[c], [(c, m)], used⟩])] ∧
       lookupA (handleMessage env st ws (.valid data)).state.clientRooms c =
         some data.roomId ∧
       lookupA (handleMessage env st ws (.valid data)).state.rooms data.roomId =
         some (joinedRoom ⟨[c], [(c, m)], used⟩ ws) ∧
       c ∈ (joinedRoom ⟨[c], [(c, m)], used⟩ ws).clients) ∧
    -- (c) PlayerLeft broadcast failure during cleanup: nothing delivered,
    --     the remaining member is NOT cleaned up
    (∀ (env : Nat → SendOutcome) (st : ServerState) (ws other m mo : Nat)
       (used : List Nat) (roomId : String),
       lookupA st.clientRooms ws = some roomId →
       lookupA st.rooms roomId = some ⟨[ws, other], [(ws, m), (other, mo)], used⟩ →
       lookupA st.clientRooms other = some roomId →
       ws ≠ other → env other ≠ .ok →
       (cleanup_player env st ws).2 = [] ∧
       lookupA (cleanup_player env st ws).1.rooms roomId =
         some ⟨[other], [(other, mo)], used.erase m⟩ ∧
       lookupA (cleanup_player env st ws).1.clientRooms other = some roomId) ∧
    -- (d) relay forward, non-closure failure: peer NOT cleaned up,
    --     sender still acked
    (∀ (env : Nat → SendOutcome) (st : ServerState) (ws other m mo : Nat)
       (used : List Nat) (data : MsgData),
       lookupA st.rooms data.roomId =
         some ⟨[ws, other], [(ws, m), (other, mo)], used⟩ →
       ws ≠ other → env ws = .ok → env other = .err →
       handleMessage env st ws (.valid data) =
         ⟨st, [(ws, .dataReceived data.roomId 0 2)], false⟩) := by
  refine ⟨?_, ?_, ?_, ?_⟩
  · intro env st ws other m mo used data hroom hcro hne hok hclosed
    have hcl := cleanup_two_member_second env st ws other m mo used data.roomId
      hcro hroom hne
    rw [handleMessage_relay env st ws data _ hroom (by simp)]
    simp [relayResult, relayStep, lookupA, hne, Ne.symm hne, hok, hclosed, hcl,
      lookupA_setA, unguardedSend]
  · intro env st ws c m used data hroom hcrc hne hok hbc
    have h1 := (join_one_member env st ws c m used data hroom hne).1
    have h2 := (join_one_member env st ws c m used data hroom hne).2
    refine ⟨?_, ?_, ?_, h2, by simp [joinedRoom]⟩
    · rw [h1]
      simp [joinResult, hok]
    · rw [h1]
      simp [joinResult, joinedRoom, setA, hne, Ne.symm hne, hok, hbc]
    · rw [h1, joinResult_state]
      simp [lookupA_setA, Ne.symm hne, hcrc]
  · intro env st ws other m mo used roomId hcr hroom hcro hne hbc
    have hsent := cleanup_two_member_first_sent env st ws other m mo used roomId
      hcr hroom hne
    have hst := cleanup_two_member_first env st ws other m mo used roomId
      hcr hroom hne
    refine ⟨by rw [hsent]; simp [hbc], ?_, ?_⟩
    · rw [hst]
      simp [lookupA_setA]
    · rw [hst]
      simp [lookupA_eraseA, Ne.symm hne, hcro]
  · intro env st ws other m mo used data hroom hne hok herr
    rw [handleMessage_relay env st ws data _ hroom (by simp)]
    simp [relayResult, relayStep, lookupA, hne, Ne.symm hne, hok, herr, hroom,
      unguardedSend]

theorem C2_amended_witness :
    (lookupA (ServerState.mk [("r", ⟨[1, 2], [(1, 1), (2, 2)], [1, 2]⟩)]
        [(1, "r"), (2, "r")]).rooms "r" =
       some ⟨[1, 2], [(1, 1), (2, 2)], [1, 2]⟩ ∧
     lookupA (ServerState.mk [("r", ⟨[1, 2], [(1, 1), (2, 2)], [1, 2]⟩)]
        [(1, "r"), (2, "r")]).clientRooms 2 = some "r" ∧
     handleMessage (fun c => if c = 2 then SendOutcome.closed else .ok)
        ⟨[("r", ⟨[1, 2], [(1, 1), (2, 2)], [1, 2]⟩)], [(1, "r"), (2, "r")]⟩ 1
        (.valid ⟨"r", "m"⟩) =
       ⟨⟨setA (ServerState.mk [("r", ⟨[1, 2], [(1, 1), (2, 2)], [1, 2]⟩)]
            [(1, "r"), (2, "r")]).rooms "r" ⟨[1], [(1, 1)], [1, 2].erase 2⟩,
         eraseA (ServerState.mk [("r", ⟨[1, 2], [(1, 1), (2, 2)], [1, 2]⟩)]
            [(1, "r"), (2, "r")]).clientRooms 2⟩,
        [(1, .playerLeft "r" (some 2) 1 [1]), (1, .dataReceived "r" 0 1)],
        false⟩) ∧
    ((handleMessage (fun c => if c = 4 then SendOutcome.err else .ok)
        ⟨[("r", ⟨[4], [(4, 2)], [2]⟩)], [(4, "r")]⟩ 7
        (.valid ⟨"r", "m"⟩)).crashed = false ∧
     (handleMessage (fun c => if c = 4 then SendOutcome.err else .ok)
        ⟨[("r", ⟨[4], [(4, 2)], [2]⟩)], [(4, "r")]⟩ 7
        (.valid ⟨"r", "m"⟩)).sent =
       [(7, .roomJoined "r" (assignedNumber ⟨[4], [(4, 2)], [2]⟩) 2 2
           [2, assignedNumber ⟨[4], [(4, 2)], [2]⟩])] ∧
     lookupA (handleMessage (fun c => if c = 4 then SendOutcome.err else .ok)
        ⟨[("r", ⟨[4], [(4, 2)], [2]⟩)], [(4, "r")]⟩ 7
        (.valid ⟨"r", "m"⟩)).state.clientRooms 4 = some "r" ∧
     lookupA (handleMessage (fun c => if c = 4 then SendOutcome.err else .ok)
        ⟨[("r", ⟨[4], [(4, 2)], [2]⟩)], [(4, "r")]⟩ 7
        (.valid ⟨"r", "m"⟩)).state.rooms "r" =
       some (joinedRoom ⟨[4], [(4, 2)], [2]⟩ 7) ∧
     (4 : Nat) ∈ (joinedRoom ⟨[4], [(4, 2)], [2]⟩ 7).clients) ∧
    ((cleanup_player (fun c => if c = 2 then SendOutcome.err else .ok)
        ⟨[("r", ⟨[1, 2], [(1, 1), (2, 2)], [1, 2]⟩)], [(1, "r"), (2, "r")]⟩
        1).2 = [] ∧
     lookupA (cleanup_player (fun c => if c = 2 then SendOutcome.err else .ok)
        ⟨[("r", ⟨[1, 2], [(1, 1), (2, 2)], [1, 2]⟩)], [(1, "r"), (2, "r")]⟩
        1).1.rooms "r" = some ⟨[2], [(2, 2)], [1, 2].erase 1⟩ ∧
     lookupA (cleanup_player (fun c => if c = 2 then SendOutcome.err else .ok)
        ⟨[("r", ⟨[1, 2], [(1, 1), (2, 2)], [1, 2]⟩)], [(1, "r"), (2, "r")]⟩
        1).1.clientRooms 2 = some "r") ∧
    (handleMessage (fun c => if c = 2 then SendOutcome.err else .ok)
        ⟨[("r", ⟨[1, 2], [(1, 1), (2, 2)], [1, 2]⟩)], [(1, "r"), (2, "r")]⟩ 1
        (.valid ⟨"r", "m"⟩) =
       ⟨⟨[("r", ⟨[1, 2], [(1, 1), (2, 2)], [1, 2]⟩)], [(1, "r"), (2, "r")]⟩,
        [(1, .dataReceived "r" 0 2)], false⟩) :=
  ⟨⟨rfl, rfl,
    C2_delivery_failure.1 (fun c => if c = 2 then SendOutcome.closed else .ok)
      ⟨[("r", ⟨[1, 2], [(1, 1), (2, 2)], [1, 2]⟩)], [(1, "r"), (2, "r")]⟩ 1 2 1 2
      [1, 2] ⟨"r", "m"⟩ rfl rfl (by decide) rfl rfl⟩,
   C2_delivery_failure.2.1 (fun c => if c = 4 then SendOutcome.err else .ok)
     ⟨[("r", ⟨[4], [(4, 2)], [2]⟩)], [(4, "r")]⟩ 7 4 2 [2] ⟨"r", "m"⟩
     rfl rfl (by decide) rfl (by decide),
   C2_delivery_failure.2.2.1 (fun c => if c = 2 then SendOutcome.err else .ok)
     ⟨[("r", ⟨[1, 2], [(1, 1), (2, 2)], [1, 2]⟩)], [(1, "r"), (2, "r")]⟩ 1 2 1 2
     [1, 2] "r" rfl rfl rfl (by decide) (by decide),
   C2_delivery_failure.2.2.2 (fun c => if c = 2 then SendOutcome.err else .ok)
     ⟨[("r", ⟨[1, 2], [(1, 1), (2, 2)], [1, 2]⟩)], [(1, "r"), (2, "r")]⟩ 1 2 1 2
     [1, 2] ⟨"r", "m"⟩ rfl (by decide) rfl rfl⟩
